import Mathlib

/-!
Verification of the catalogue traversal and flattening pipeline of
`cineca-choice-helper` (`src/main.py`).

The embedding is shallow: every definition below translates a piece of
`main.py`.  Language-specific JSON keys (`des_{lang}`, `label_{lang}`,
`periodo_didattico_{lang}`) are resolved by the `Keys` class once at startup,
so nodes here carry the already-selected language variant in a single field
(`des`, `label`, `periodo_didattico`).  Fallible Python code (a `next()` over
an exhausted generator, an out-of-range `[0]` index) is embedded with
`Except`.
-/

/-- Python exception kinds the embedded fragments can raise:
`stopIteration` from `next()` over an exhausted generator (line 69 with no
matching option), `indexError` from an out-of-range `[0]` index — either
`course["cdsSub"][0]` on line 55 or `choices[self.current]` = `[][0]` inside
`inquirer`'s ENTER handler when `list_input` was handed an empty choices
list — together with `emptySelection`, the `EmptySelection` error kind named
by the design document's error taxonomy.  The code of `main.py` never
defines or raises an `EmptySelection` error; the constructor exists only so
that statements can compare the code's actual failure kind against it. -/
inductive PyError where
  | stopIteration
  | indexError
  | emptySelection
deriving DecidableEq

/-- A JSON scalar as it reaches the flattener: the JSON's native numeric or
string representation, carried through without coercion (used for the
`crediti` field and the `CFU` output column). -/
inductive JVal where
  | jstr : String → JVal
  | jnum : Int → JVal
deriving DecidableEq

/-- `str(v)` applied to a `JVal`, as `df[column].astype(str)` renders cells
in `save_to_xlsx`. -/
def JVal.render : JVal → String
  | .jstr s => s
  | .jnum n => toString n

/-- An `attivita` entry of a teaching unit.  `aa`, `cod`, `ordinamento_aa`,
`corso_percorso_id` and `corso_cod` are the fields `COURSE_PATH_TEMPLATE`
formats; `periodo_didattico` is the language-selected
`periodo_didattico_{lang}` field, optional in the JSON (`main.py` reads it
with `.get(key, "")`); `des` is the language-selected description
`des_{lang}`. -/
structure Activity where
  aa : String
  cod : String
  ordinamento_aa : String
  corso_percorso_id : String
  corso_cod : String
  crediti : JVal
  periodo_didattico : Option String
  des : String
deriving DecidableEq

/-- An `insegnamenti` entry: `label` is the language-selected `label_{lang}`. -/
structure TeachingUnit where
  label : String
  attivita : List Activity
deriving DecidableEq

/-- An `anni` entry of a study path. -/
structure YearBlock where
  anno : Int
  insegnamenti : List TeachingUnit
deriving DecidableEq

/-- A `percorso` (study path): the subtree `_serialize_course_choices`
consumes. -/
structure StudyPath where
  anni : List YearBlock
deriving DecidableEq

/-- One output row of the flattener (one dict appended to `intermidiate` in
`_serialize_course_choices`). -/
structure FlatRecord where
  Year : Int
  Teaching : String
  Semester : String
  CFU : JVal
  Name : String
  Link : String
deriving DecidableEq

/-- `CINECA_BASE_URL` = `https://{university}.coursecatalogue.cineca.it/{path}`
with the two fields substituted. -/
def cineca_base_url (university path : String) : String :=
  "https://" ++ university ++ ".coursecatalogue.cineca.it/" ++ path

/-- `COURSE_PATH_TEMPLATE.format(**activity)`: the template
`insegnamenti/{aa}/{cod}/{ordinamento_aa}/{corso_percorso_id}/{corso_cod}`
filled from the activity's own fields. -/
def course_path_format (a : Activity) : String :=
  "insegnamenti/" ++ a.aa ++ "/" ++ a.cod ++ "/" ++ a.ordinamento_aa ++ "/"
    ++ a.corso_percorso_id ++ "/" ++ a.corso_cod

/-- The placeholder dict appended when `teaching["attivita"]` is empty
(`main.py` lines 76-86). -/
def placeholderRecord (anno : Int) (label : String) : FlatRecord :=
  { Year := anno
    Teaching := label
    Semester := ""
    CFU := JVal.jstr ""
    Name := "N/A"
    Link := "N/A" }

/-- The dict appended for one activity (`main.py` lines 88-99): `Semester`
from `activity.get(periodo_didattico_key, "")`, `CFU` from
`activity["crediti"]`, `Name` from the language-selected description, `Link`
the `=HYPERLINK(...)` formula whose target is the filled deep-link template
and whose displayed text is `activity["cod"]`. -/
def activityRecord (university : String) (anno : Int) (label : String) (a : Activity) :
    FlatRecord :=
  { Year := anno
    Teaching := label
    Semester := a.periodo_didattico.getD ""
    CFU := a.crediti
    Name := a.des
    Link := "=HYPERLINK(\"" ++ cineca_base_url university (course_path_format a)
      ++ "\", \"" ++ a.cod ++ "\")" }

/-- The sort key relation of `intermidiate.sort(key=lambda a: a["Semester"])`:
compare records by their `Semester` string under lexicographic string order. -/
def semLe (a b : FlatRecord) : Prop :=
  a.Semester ≤ b.Semester

instance : DecidableRel semLe := fun a b =>
  decidable_of_iff (a.Semester.toList ≤ b.Semester.toList)
    (Iff.symm String.le_iff_toList_le)

instance : IsTotal FlatRecord semLe :=
  ⟨fun a b => le_total a.Semester b.Semester⟩

instance : IsTrans FlatRecord semLe :=
  ⟨fun _ _ _ hab hbc => le_trans hab hbc⟩

/-- The `intermidiate` list built for one teaching unit and then sorted in
place (`main.py` lines 75-100): one placeholder row when `attivita` is empty,
otherwise one row per activity, stably sorted by the `Semester` string.
Python's `list.sort` is a stable sort; `List.insertionSort` with the
reflexive key relation `semLe` is the same stable sort. -/
def teachingRecords (university : String) (anno : Int) (t : TeachingUnit) :
    List FlatRecord :=
  List.insertionSort semLe
    ((if t.attivita.isEmpty then [placeholderRecord anno t.label] else [])
      ++ t.attivita.map (activityRecord university anno t.label))

/-- `_serialize_course_choices` (`main.py` lines 71-103): the nested loops
over `percorso["anni"]` and `year["insegnamenti"]`, each iteration extending
the `serialized` accumulator with the teaching unit's sorted block.  The
resulting list is the row sequence of the returned `DataFrame`. -/
def serialize_course_choices (university : String) (percorso : StudyPath) :
    List FlatRecord :=
  percorso.anni.foldl
    (fun serialized y =>
      y.insegnamenti.foldl
        (fun serialized t => serialized ++ teachingRecords university y.anno t)
        serialized)
    []

/-- `_select_with_des` (`main.py` lines 65-69).  `inquirer.list_input` shows
the display strings `[o[des_key] for o in options]` and hands back the string
the user picked; that chosen string is the `choice` argument here.  The
method then returns `next(o for o in options if o[des_key] == choice)`: the
first option whose display string equals the choice, and a `StopIteration`
exception when the generator is exhausted without a match.

With an empty `options` list the prompt step itself is the failure:
`inquirer.list_input(prompt, choices=[])` blocks on the unpresentable empty
list, and its only exit is the `IndexError` raised inside the library when
the ENTER handler evaluates `choices[self.current]` = `[][0]`; `list_input`
never returns a string, so line 69's `next()` is unreachable.  The first
branch embeds that exit (the blocking wait itself has no shallow
counterpart); the `choice` argument is only meaningful on the non-empty
path. -/
def select_with_des {α : Type} (des : α → String) (options : List α)
    (choice : String) : Except PyError α :=
  if options.isEmpty then Except.error PyError.indexError
  else
    match options.find? (fun o => des o = choice) with
    | some o => Except.ok o
    | none => Except.error PyError.stopIteration

/-- A `cdsSub` entry of a course node. -/
structure SubCode where
  cod : String
deriving DecidableEq

/-- A `cds` entry of a department node. -/
structure Course where
  des : String
  cdsSub : List SubCode
deriving DecidableEq

/-- A `subgroups` entry of a degree group. -/
structure Department where
  des : String
  cds : List Course
deriving DecidableEq

/-- A top-level entry of the `api/v1/corsi` listing. -/
structure DegreeGroup where
  des : String
  subgroups : List Department
deriving DecidableEq

/-- `get_degree` (`main.py` lines 46-55), after the fetch: `gruppi` is the
JSON tree the listing endpoint returned, and `c1`, `c2`, `c3` are the three
display strings the user picks in sequence (degree group, then department,
then course).  Returns `course["cdsSub"][0]["cod"]`; an empty `cdsSub` list
would raise `IndexError` at the `[0]` index. -/
def get_degree (gruppi : List DegreeGroup) (c1 c2 c3 : String) :
    Except PyError String :=
  match select_with_des DegreeGroup.des gruppi c1 with
  | Except.error e => Except.error e
  | Except.ok group =>
    match select_with_des Department.des group.subgroups c2 with
    | Except.error e => Except.error e
    | Except.ok department =>
      match select_with_des Course.des department.cds c3 with
      | Except.error e => Except.error e
      | Except.ok course =>
        match course.cdsSub with
        | [] => Except.error PyError.indexError
        | s :: _ => Except.ok s.cod

/-- The mutable environment of one `_serialize_course_choices` call: the
`percorso` subtree the loops read from, and the `serialized` list the loop
body appends to. -/
structure SerializeState where
  percorso : StudyPath
  serialized : List FlatRecord
deriving DecidableEq

/-- One iteration of the inner loop body: `serialized.extend(intermidiate)`
for one teaching unit, threading the whole state. -/
def serializeStep (university : String) (anno : Int) (t : TeachingUnit)
    (st : SerializeState) : SerializeState :=
  { st with serialized := st.serialized ++ teachingRecords university anno t }

/-- The inner loop `for teaching in year["insegnamenti"]`. -/
def serializeYear (university : String) (y : YearBlock) (st : SerializeState) :
    SerializeState :=
  y.insegnamenti.foldl (fun st t => serializeStep university y.anno t st) st

/-- A full `_serialize_course_choices` call as a state transformer: reset the
local `serialized = []` accumulator, then run the outer loop
`for year in percorso["anni"]` over the state's own `percorso`. -/
def serializeRun (university : String) (st0 : SerializeState) : SerializeState :=
  let st := { st0 with serialized := ([] : List FlatRecord) }
  st.percorso.anni.foldl (fun st y => serializeYear university y st) st

/-- The six columns of the serialized `DataFrame`, in the insertion order of
the row dicts (which is the column order `pd.DataFrame` keeps). -/
inductive Col where
  | year
  | teaching
  | semester
  | cfu
  | name
  | link
deriving DecidableEq

/-- The column header string (`len(column)` in `save_to_xlsx` is its length). -/
def colHeader : Col → String
  | .year => "Year"
  | .teaching => "Teaching"
  | .semester => "Semester"
  | .cfu => "CFU"
  | .name => "Name"
  | .link => "Link"

/-- One cell of a row rendered by `df[column].astype(str)`: `str()` of the
stored value. -/
def renderCell (r : FlatRecord) : Col → String
  | .year => toString r.Year
  | .teaching => r.Teaching
  | .semester => r.Semester
  | .cfu => r.CFU.render
  | .name => r.Name
  | .link => r.Link

/-- The width `save_to_xlsx` (`main.py` line 110) assigns to a column:
`max(df[column].astype(str).map(len).max(), len(column))`.  The inner
`.max()` over the rendered cell lengths is embedded as a `foldl max 0`; the
`0` base is unreachable in the program, since the loop only runs over columns
of a `DataFrame` built from a non-empty record list. -/
def column_width (records : List FlatRecord) (c : Col) : Nat :=
  max ((records.map fun r => (renderCell r c).length).foldl max 0)
    (colHeader c).length

/-! ## Helper lemmas -/

/-- Folding `acc ++ g x` over a list appends the concatenation of the blocks. -/
theorem foldl_append_blocks {α β : Type} (g : α → List β) :
    ∀ (l : List α) (acc : List β),
      l.foldl (fun a x => a ++ g x) acc = acc ++ l.flatMap g
  | [], acc => by simp
  | x :: l, acc => by
    simp [List.foldl_cons, foldl_append_blocks g l, List.append_assoc]

/-- `_serialize_course_choices` is the concatenation, in `anni` then
`insegnamenti` input order, of the per-teaching-unit sorted blocks. -/
theorem serialize_eq_blocks (u : String) (p : StudyPath) :
    serialize_course_choices u p
      = p.anni.flatMap fun y => y.insegnamenti.flatMap (teachingRecords u y.anno) := by
  unfold serialize_course_choices
  have h : (fun (serialized : List FlatRecord) (y : YearBlock) =>
        y.insegnamenti.foldl
          (fun serialized t => serialized ++ teachingRecords u y.anno t) serialized)
      = fun serialized y =>
          serialized ++ y.insegnamenti.flatMap (teachingRecords u y.anno) := by
    funext serialized y
    exact foldl_append_blocks _ _ _
  rw [h, foldl_append_blocks (fun y : YearBlock =>
    y.insegnamenti.flatMap (teachingRecords u y.anno)) p.anni []]
  simp

/-- One teaching unit's block has `max 1 (length attivita)` rows. -/
theorem length_teachingRecords (u : String) (anno : Int) (t : TeachingUnit) :
    (teachingRecords u anno t).length = max 1 t.attivita.length := by
  unfold teachingRecords
  rw [List.length_insertionSort]
  cases h : t.attivita with
  | nil => simp [h]
  | cons a l =>
    simp only [List.isEmpty_cons, Bool.false_eq_true, if_false, List.nil_append,
      List.length_map, List.length_cons]
    omega

/-! ## Example data

Concrete inputs used by the end-to-end scenarios. -/

/-- The "Calculus I" activity in semester "2" with 6 credits. -/
def exActSem2 : Activity :=
  { aa := "2025", cod := "MAT0041", ordinamento_aa := "2023"
    corso_percorso_id := "10114", corso_cod := "0514H"
    crediti := JVal.jnum 6, periodo_didattico := some "2"
    des := "CALCULUS I - PART B" }

/-- The "Calculus I" activity in semester "1" with 3 credits. -/
def exActSem1 : Activity :=
  { aa := "2025", cod := "MAT0040", ordinamento_aa := "2023"
    corso_percorso_id := "10114", corso_cod := "0514H"
    crediti := JVal.jnum 3, periodo_didattico := some "1"
    des := "CALCULUS I - PART A" }

/-- A teaching unit whose activities arrive in semester order "2", "1". -/
def exCalcUnit : TeachingUnit :=
  { label := "Calculus I", attivita := [exActSem2, exActSem1] }

/-- A study path with one year block (anno = 1) holding `exCalcUnit`. -/
def exCalcPath : StudyPath :=
  { anni := [{ anno := 1, insegnamenti := [exCalcUnit] }] }

/-- C1: for every StudyPath input the flattener emits, per teaching unit of
every year block, `max 1 (length attivita)` records — summed over all
teaching units this is the output row count, and no teaching unit ever
contributes zero rows. -/
theorem C1_row_count (u : String) (p : StudyPath) :
    (serialize_course_choices u p).length
      = (p.anni.map fun y =>
          (y.insegnamenti.map fun t => max 1 t.attivita.length).sum).sum
    ∧ ∀ (anno : Int) (t : TeachingUnit),
        1 ≤ (teachingRecords u anno t).length := by
  constructor
  · rw [serialize_eq_blocks]
    simp [List.length_flatMap, length_teachingRecords, Function.comp_def]
  · intro anno t
    rw [length_teachingRecords]
    exact Nat.le_max_left 1 _

/-- C2: every teaching unit's emitted block is sorted by the `Semester`
string (lexicographic order, empty string first); the whole output is the
concatenation, in year-block then teaching-unit input order, of those
locally sorted blocks; and the one-year "Calculus I" study path with
semesters "2", "1" and credits 6, 3 flattens to exactly the two rows
[semester "1", semester "2"], both with Year 1 and Teaching "Calculus I". -/
theorem C2_local_sort :
    (∀ (u : String) (anno : Int) (t : TeachingUnit),
        (teachingRecords u anno t).Sorted semLe)
    ∧ (∀ (u : String) (p : StudyPath),
        serialize_course_choices u p
          = p.anni.flatMap fun y => y.insegnamenti.flatMap (teachingRecords u y.anno))
    ∧ ((serialize_course_choices "unitn" exCalcPath).map fun r => r.Semester)
        = ["1", "2"]
    ∧ ((serialize_course_choices "unitn" exCalcPath).map fun r => r.CFU)
        = [JVal.jnum 3, JVal.jnum 6]
    ∧ ((serialize_course_choices "unitn" exCalcPath).map fun r => r.Year)
        = [1, 1]
    ∧ ((serialize_course_choices "unitn" exCalcPath).map fun r => r.Teaching)
        = ["Calculus I", "Calculus I"] := by
  refine ⟨fun u anno t => List.sorted_insertionSort semLe _,
    fun u p => serialize_eq_blocks u p, ?_, ?_, ?_, ?_⟩ <;> decide

/-- C3: a teaching unit with an empty activities list yields exactly one
placeholder row, with Year the enclosing year block's number, Teaching the
unit's language-specific label, empty Semester and CFU, and Name and Link
both "N/A". -/
theorem C3_placeholder_row (u : String) (anno : Int) (t : TeachingUnit)
    (h : t.attivita = []) :
    teachingRecords u anno t
      = [{ Year := anno, Teaching := t.label, Semester := "",
           CFU := JVal.jstr "", Name := "N/A", Link := "N/A" }] := by
  simp [teachingRecords, h, placeholderRecord, List.insertionSort]

/-- A teaching unit with no activities. -/
def exEmptyUnit : TeachingUnit :=
  { label := "Internship", attivita := [] }

/-- C3 witness: the placeholder row for a concrete empty teaching unit. -/
theorem C3_placeholder_row_witness :
    exEmptyUnit.attivita = []
    ∧ teachingRecords "unitn" 2 exEmptyUnit
        = [{ Year := 2, Teaching := "Internship", Semester := "",
             CFU := JVal.jstr "", Name := "N/A", Link := "N/A" }] :=
  ⟨rfl, C3_placeholder_row "unitn" 2 exEmptyUnit rfl⟩

/-- C4: for a non-empty teaching unit the emitted block is, up to the local
semester sort, exactly one record per activity, and that record's Semester is
the activity's optional semester field defaulting to "", its CFU the credits
value carried through, its Name the activity's description, and its Link the
hyperlink formula whose target is the filled deep-link template and whose
displayed text is the activity code. -/
theorem C4_activity_rows (u : String) (anno : Int) (t : TeachingUnit)
    (h : t.attivita ≠ []) :
    List.Perm (teachingRecords u anno t)
        (t.attivita.map (activityRecord u anno t.label))
    ∧ ∀ a : Activity,
        (activityRecord u anno t.label a).Semester = a.periodo_didattico.getD ""
        ∧ (activityRecord u anno t.label a).CFU = a.crediti
        ∧ (activityRecord u anno t.label a).Name = a.des
        ∧ (activityRecord u anno t.label a).Link
            = "=HYPERLINK(\"" ++ cineca_base_url u (course_path_format a)
                ++ "\", \"" ++ a.cod ++ "\")" := by
  constructor
  · have he : t.attivita.isEmpty = false := by
      simpa [List.isEmpty_iff] using h
    simpa [teachingRecords, he] using
      List.perm_insertionSort semLe (t.attivita.map (activityRecord u anno t.label))
  · exact fun a => ⟨rfl, rfl, rfl, rfl⟩

/-- C4 witness: the two "Calculus I" activities each yield one record. -/
theorem C4_activity_rows_witness :
    exCalcUnit.attivita ≠ []
    ∧ (List.Perm (teachingRecords "unitn" 1 exCalcUnit)
          (exCalcUnit.attivita.map (activityRecord "unitn" 1 exCalcUnit.label))
        ∧ ∀ a : Activity,
            (activityRecord "unitn" 1 exCalcUnit.label a).Semester
                = a.periodo_didattico.getD ""
            ∧ (activityRecord "unitn" 1 exCalcUnit.label a).CFU = a.crediti
            ∧ (activityRecord "unitn" 1 exCalcUnit.label a).Name = a.des
            ∧ (activityRecord "unitn" 1 exCalcUnit.label a).Link
                = "=HYPERLINK(\""
                    ++ cineca_base_url "unitn" (course_path_format a)
                    ++ "\", \"" ++ a.cod ++ "\")") :=
  ⟨by decide, C4_activity_rows "unitn" 1 exCalcUnit (by decide)⟩

/-- `find?` returns the first element of the list satisfying the predicate. -/
theorem find_first_match {α : Type} (des : α → String) (choice : String) :
    ∀ (l1 l2 : List α) (o : α), (∀ x ∈ l1, des x ≠ choice) → des o = choice →
      (l1 ++ o :: l2).find? (fun x => des x = choice) = some o
  | [], l2, o, _, h2 => by simp [List.find?_cons_of_pos, h2]
  | x :: l1, l2, o, h1, h2 => by
    rw [List.cons_append, List.find?_cons_of_neg, find_first_match des choice l1 l2 o
      (fun y hy => h1 y (List.mem_cons_of_mem x hy)) h2]
    simpa using h1 x (List.mem_cons_self x l1)

/-- C5: the selector returns the first option, in the list's iteration order,
whose display string equals the chosen string. -/
theorem C5_first_option {α : Type} (des : α → String) (l1 l2 : List α) (o : α)
    (choice : String) (h1 : ∀ x ∈ l1, des x ≠ choice) (h2 : des o = choice) :
    select_with_des des (l1 ++ o :: l2) choice = Except.ok o := by
  have hne : (l1 ++ o :: l2).isEmpty = false := by
    cases l1 <;> simp
  unfold select_with_des
  rw [hne, find_first_match des choice l1 l2 o h1 h2]
  simp

/-- An option object as the selector sees it: a display string (`des_it` in
the scenario) and an identifying payload. -/
structure SelOpt where
  des : String
  id : Int
deriving DecidableEq

/-- The option with display string "X" and id 1. -/
def exOpt1 : SelOpt := { des := "X", id := 1 }

/-- The option with display string "X" and id 2. -/
def exOpt2 : SelOpt := { des := "X", id := 2 }

/-- C5 witness: with two options sharing display string "X", the selector
returns the object with id 1. -/
theorem C5_first_option_witness :
    (∀ x ∈ ([] : List SelOpt), SelOpt.des x ≠ "X")
    ∧ SelOpt.des exOpt1 = "X"
    ∧ select_with_des SelOpt.des [exOpt1, exOpt2] "X" = Except.ok exOpt1
    ∧ exOpt1.id = 1 :=
  ⟨by simp, rfl,
    C5_first_option SelOpt.des [] [exOpt2] exOpt1 "X" (by simp) rfl, rfl⟩

/-- C6 (amended): called on an empty options list, the selector never
returns an option, but not through an `EmptySelection` error: the prompt
blocks on the unpresentable empty choice list and the run dies with the
`IndexError` raised inside `inquirer` (`[][0]` in the ENTER handler), the
one exit of `list_input` on empty choices — `next()` is never reached, and
no `EmptySelection` error kind exists anywhere in the code. -/
theorem C6_empty_options {α : Type} (des : α → String) (choice : String) :
    select_with_des des ([] : List α) choice
      = Except.error PyError.indexError :=
  rfl

/-- C6 counterexample: on the empty options list the failure kind the code
produces is the library's `IndexError`, which is not the `EmptySelection`
error kind the claim names. -/
theorem C6_counterexample :
    select_with_des SelOpt.des ([] : List SelOpt) "X"
        = Except.error PyError.indexError
    ∧ (Except.error PyError.indexError : Except PyError SelOpt)
        ≠ Except.error PyError.emptySelection :=
  ⟨rfl, fun h => absurd (Except.error.inj h) (by decide)⟩

/-- C7: when the three chained selections (degree group, then department
within the group, then course within the department) succeed, `get_degree`
returns the course code of the first entry of the selected course's `cdsSub`
list. -/
theorem C7_first_subcode (gruppi : List DegreeGroup) (c1 c2 c3 : String)
    (g : DegreeGroup) (d : Department) (c : Course) (s : SubCode)
    (rest : List SubCode)
    (hg : select_with_des DegreeGroup.des gruppi c1 = Except.ok g)
    (hd : select_with_des Department.des g.subgroups c2 = Except.ok d)
    (hc : select_with_des Course.des d.cds c3 = Except.ok c)
    (hs : c.cdsSub = s :: rest) :
    get_degree gruppi c1 c2 c3 = Except.ok s.cod := by
  unfold get_degree
  simp only [hg, hd, hc, hs]

/-- The sub-code of the concrete course. -/
def exSubCode : SubCode := { cod := "0514H" }

/-- A course node with one `cdsSub` entry. -/
def exCourse : Course := { des := "Computer Science", cdsSub := [exSubCode] }

/-- A department node holding the concrete course. -/
def exDept : Department := { des := "Science and Technology", cds := [exCourse] }

/-- A degree group holding the concrete department. -/
def exGroup : DegreeGroup := { des := "Bachelor", subgroups := [exDept] }

/-- C7 witness: the three selections on a concrete tree resolve to the first
sub-code "0514H". -/
theorem C7_first_subcode_witness :
    select_with_des DegreeGroup.des [exGroup] "Bachelor" = Except.ok exGroup
    ∧ select_with_des Department.des exGroup.subgroups "Science and Technology"
        = Except.ok exDept
    ∧ select_with_des Course.des exDept.cds "Computer Science"
        = Except.ok exCourse
    ∧ exCourse.cdsSub = exSubCode :: []
    ∧ get_degree [exGroup] "Bachelor" "Science and Technology" "Computer Science"
        = Except.ok "0514H" :=
  ⟨rfl, rfl, rfl, rfl,
    C7_first_subcode [exGroup] "Bachelor" "Science and Technology"
      "Computer Science" exGroup exDept exCourse exSubCode []
      rfl rfl rfl rfl⟩

/-- The inner teaching-unit loop only appends to `serialized`; the `percorso`
component threads through unchanged. -/
theorem foldl_serializeStep (u : String) (anno : Int) :
    ∀ (l : List TeachingUnit) (st : SerializeState),
      l.foldl (fun st t => serializeStep u anno t st) st
        = { st with serialized :=
              st.serialized ++ l.flatMap (teachingRecords u anno) }
  | [], st => by simp
  | t :: l, st => by
    rw [List.foldl_cons, foldl_serializeStep u anno l]
    simp [serializeStep, List.append_assoc]

/-- The outer year loop only appends to `serialized`; the `percorso`
component threads through unchanged. -/
theorem foldl_serializeYear (u : String) :
    ∀ (l : List YearBlock) (st : SerializeState),
      l.foldl (fun st y => serializeYear u y st) st
        = { st with serialized :=
              st.serialized
                ++ l.flatMap fun y =>
                      y.insegnamenti.flatMap (teachingRecords u y.anno) }
  | [], st => by simp
  | y :: l, st => by
    rw [List.foldl_cons, foldl_serializeYear u l]
    simp [serializeYear, foldl_serializeStep, List.append_assoc]

/-- C8: the flattener is a pure function of the `percorso` subtree.  A run
leaves the input study path unmodified, its output is determined by the
input study path alone (`serialize_course_choices` of it, whatever the rest
of the state held), and running twice is the same as running once. -/
theorem C8_pure_function (u : String) (st : SerializeState) :
    (serializeRun u st).percorso = st.percorso
    ∧ (serializeRun u st).serialized = serialize_course_choices u st.percorso
    ∧ serializeRun u (serializeRun u st) = serializeRun u st := by
  have h : ∀ st' : SerializeState,
      serializeRun u st'
        = { percorso := st'.percorso
            serialized :=
              st'.percorso.anni.flatMap fun y =>
                y.insegnamenti.flatMap (teachingRecords u y.anno) } := by
    intro st'
    unfold serializeRun
    rw [foldl_serializeYear]
    simp
  refine ⟨by simp [h], ?_, by simp [h]⟩
  rw [h, serialize_eq_blocks]

/-- `foldl max` computes an upper bound of the accumulator and every list
element, and its value is the accumulator or one of the elements. -/
theorem foldl_max_spec : ∀ (l : List Nat) (a : Nat),
    a ≤ l.foldl max a ∧ (∀ x ∈ l, x ≤ l.foldl max a)
    ∧ (l.foldl max a = a ∨ l.foldl max a ∈ l)
  | [], a => by simp
  | x :: l, a => by
    have ih := foldl_max_spec l (max a x)
    simp only [List.foldl_cons]
    refine ⟨le_trans (le_max_left a x) ih.1, ?_, ?_⟩
    · intro y hy
      rcases List.mem_cons.mp hy with rfl | hy
      · exact le_trans (le_max_right a y) ih.1
      · exact ih.2.1 y hy
    · rcases ih.2.2 with h | h
      · rcases max_choice a x with hax | hax
        · exact Or.inl (h.trans hax)
        · exact Or.inr (by rw [h, hax]; exact List.mem_cons_self x l)
      · exact Or.inr (List.mem_cons_of_mem x h)

/-- C9: the width `save_to_xlsx` assigns to a column is an upper bound of
the header length and of every rendered cell's length, and it is attained:
it equals the header length or the length of some row's rendered cell — i.e.
it is the maximum of the header length and the longest rendered cell. -/
theorem C9_column_width (records : List FlatRecord) (c : Col)
    (_h : records ≠ []) :
    (colHeader c).length ≤ column_width records c
    ∧ (∀ r ∈ records, (renderCell r c).length ≤ column_width records c)
    ∧ (column_width records c = (colHeader c).length
        ∨ ∃ r ∈ records, (renderCell r c).length = column_width records c) := by
  have hs := foldl_max_spec (records.map fun r => (renderCell r c).length) 0
  unfold column_width
  refine ⟨le_max_right _ _, ?_, ?_⟩
  · intro r hr
    exact le_trans (hs.2.1 _ (List.mem_map_of_mem _ hr)) (le_max_left _ _)
  · rcases le_total ((records.map fun r => (renderCell r c).length).foldl max 0)
        (colHeader c).length with hle | hge
    · exact Or.inl (max_eq_right hle)
    · rcases hs.2.2 with h0 | hmem
      · refine Or.inl ?_
        rw [max_eq_left hge, h0]
        omega
      · rcases List.mem_map.mp hmem with ⟨r, hr, hlen⟩
        exact Or.inr ⟨r, hr, by rw [hlen, max_eq_left hge]⟩

/-- A record whose Teaching value is the given string, used by the export
scenario. -/
def exRec (tch : String) : FlatRecord :=
  { Year := 1, Teaching := tch, Semester := "1", CFU := JVal.jnum 6,
    Name := "N", Link := "N/A" }

/-- Three records whose longest Teaching value, "Advanced Mathematics", has
20 characters. -/
def exWidthRecords : List FlatRecord :=
  [exRec "Algorithms", exRec "Databases", exRec "Advanced Mathematics"]

/-- C9 witness: with three records whose longest Teaching value has 20
characters while the header "Teaching" has 8, the Teaching column width is
20. -/
theorem C9_column_width_witness :
    exWidthRecords ≠ []
    ∧ (colHeader Col.teaching).length = 8
    ∧ (exRec "Advanced Mathematics").Teaching.length = 20
    ∧ column_width exWidthRecords Col.teaching = 20
    ∧ ((colHeader Col.teaching).length
          ≤ column_width exWidthRecords Col.teaching
        ∧ (∀ r ∈ exWidthRecords,
            (renderCell r Col.teaching).length
              ≤ column_width exWidthRecords Col.teaching)
        ∧ (column_width exWidthRecords Col.teaching
              = (colHeader Col.teaching).length
            ∨ ∃ r ∈ exWidthRecords,
                (renderCell r Col.teaching).length
                  = column_width exWidthRecords Col.teaching)) :=
  ⟨by decide, by decide, by decide, by decide,
    C9_column_width exWidthRecords Col.teaching (by decide)⟩

/-- Inserting a record into a list keeps the sublist of records with any
fixed Semester value: records passed over compare strictly below the
inserted one, so their Semester differs from its own. -/
theorem filter_sem_orderedInsert (s : String) (a : FlatRecord) :
    ∀ l : List FlatRecord,
      (List.orderedInsert semLe a l).filter (fun r => r.Semester = s)
        = if a.Semester = s
            then a :: l.filter (fun r => r.Semester = s)
            else l.filter (fun r => r.Semester = s)
  | [] => by
    by_cases has : a.Semester = s <;>
      simp [List.orderedInsert, List.filter, has]
  | b :: l => by
    by_cases hab : semLe a b
    · rw [List.orderedInsert, if_pos hab]
      by_cases has : a.Semester = s <;> simp [List.filter_cons, has]
    · rw [List.orderedInsert, if_neg hab, List.filter_cons, List.filter_cons,
        filter_sem_orderedInsert s a l]
      by_cases has : a.Semester = s
      · have hbs : ¬ b.Semester = s := fun hbs =>
          hab (show semLe a b from le_of_eq (has.trans hbs.symm))
        simp [has, hbs]
      · by_cases hbs : b.Semester = s <;> simp [has, hbs]

/-- The local semester sort keeps the relative order of records whose
Semester values are equal: filtering the sorted list at any Semester value
gives the same list as filtering the input. -/
theorem filter_sem_insertionSort (s : String) :
    ∀ l : List FlatRecord,
      (List.insertionSort semLe l).filter (fun r => r.Semester = s)
        = l.filter (fun r => r.Semester = s)
  | [] => rfl
  | a :: l => by
    rw [List.insertionSort, filter_sem_orderedInsert s a (List.insertionSort semLe l),
      filter_sem_insertionSort s l, List.filter_cons]
    by_cases has : a.Semester = s <;> simp [has]

/-- C10: the per-teaching-unit semester sort is stable — for every Semester
value, the emitted records carrying it appear in the same relative order as
their source activities in the unit's input list. -/
theorem C10_stable_sort (u : String) (anno : Int) (t : TeachingUnit)
    (s : String) (h : t.attivita ≠ []) :
    (teachingRecords u anno t).filter (fun r => r.Semester = s)
      = (t.attivita.map (activityRecord u anno t.label)).filter
          (fun r => r.Semester = s) := by
  have he : t.attivita.isEmpty = false := by simpa [List.isEmpty_iff] using h
  rw [teachingRecords, he]
  simp only [Bool.false_eq_true, if_false, List.nil_append]
  exact filter_sem_insertionSort s _

/-- First of two activities sharing semester "1". -/
def exActPartA : Activity :=
  { aa := "2025", cod := "FIS0011", ordinamento_aa := "2023"
    corso_percorso_id := "10114", corso_cod := "0514H"
    crediti := JVal.jnum 6, periodo_didattico := some "1"
    des := "PHYSICS - PART A" }

/-- Second of two activities sharing semester "1". -/
def exActPartB : Activity :=
  { aa := "2025", cod := "FIS0012", ordinamento_aa := "2023"
    corso_percorso_id := "10114", corso_cod := "0514H"
    crediti := JVal.jnum 6, periodo_didattico := some "1"
    des := "PHYSICS - PART B" }

/-- A teaching unit whose two activities share the same semester. -/
def exSameSemUnit : TeachingUnit :=
  { label := "Physics", attivita := [exActPartA, exActPartB] }

/-- C10 witness: with two activities sharing semester "1", the emitted
records keep the input order (Part A before Part B). -/
theorem C10_stable_sort_witness :
    exSameSemUnit.attivita ≠ []
    ∧ ((teachingRecords "unitn" 1 exSameSemUnit).filter
          (fun r => r.Semester = "1")
        = (exSameSemUnit.attivita.map
            (activityRecord "unitn" 1 exSameSemUnit.label)).filter
              (fun r => r.Semester = "1"))
    ∧ ((teachingRecords "unitn" 1 exSameSemUnit).map fun r => r.Name)
        = ["PHYSICS - PART A", "PHYSICS - PART B"] :=
  ⟨by decide,
    C10_stable_sort "unitn" 1 exSameSemUnit "1" (by decide),
    by decide⟩
